import Mathlib

/-!
Verification of the go-appsettings `Composer` pipeline.

The embedding follows the Go source of the `appsettings` package: the
`Composer` struct with its `jsonReader`, `updater` and `validator` fields,
the sentinel error values, the constructors `NewComposer` and
`NewComposerWithReader`, the fluent setters `WithUpdater` and
`WithValidator`, and the `Read` method with its guard clauses, its
read/unmarshal block and the deferred close that runs at function exit and
overwrites the named return value `err` whenever the close fails.

External collaborators (the standard library JSON decoder, the operating
system file open, the document sources and the plugins) are passed in as
explicit parameters or concrete values, since the package consumes them
through narrow interfaces.
-/

/-- Go error values as used by this package: an error is either a leaf
created by `errors.New` / `fmt.Errorf` (identified here by its message,
which is faithful for this package because every sentinel carries a
distinct message), or the result of `errors.Join` on two non-nil errors,
which is the only arity the package uses. -/
inductive GoError where
  | new (msg : String)
  | join (a b : GoError)
deriving DecidableEq

/-- `errors.Is` as the package relies on it: unwrap the join tree and
compare against the target error value. -/
def GoError.is : GoError → GoError → Bool
  | GoError.new m, target => decide (GoError.new m = target)
  | GoError.join a b, target =>
      decide (GoError.join a b = target) || a.is target || b.is target

/-- The `Error()` string of a Go error: a joined error renders its parts
separated by a newline, which is the display form `errors.Join` produces. -/
def GoError.text : GoError → String
  | GoError.new m => m
  | GoError.join a b => a.text ++ "\n" ++ b.text

/-- Whether character list `t` is an initial segment of `s`. -/
def listStarts : List Char → List Char → Bool
  | [], _ => true
  | _ :: _, [] => false
  | a :: as, b :: bs => a == b && listStarts as bs

/-- Whether character list `t` occurs inside `s` (substring search). -/
def listOccurs (t : List Char) : List Char → Bool
  | [] => listStarts t []
  | b :: bs => listStarts t (b :: bs) || listOccurs t bs

/-- `strings.Contains`, as used by the `assert.ErrorContains` checks of the
package tests: substring containment on the rendered error text. -/
def strContains (s t : String) : Bool := listOccurs t.data s.data

/-- Sentinel `ErrAppSettingsNil` from the Go source. -/
def ErrAppSettingsNil : GoError := GoError.new "appsettings instance is nil"

/-- Sentinel `ErrSettingsParamNil` from the Go source. -/
def ErrSettingsParamNil : GoError := GoError.new "settings parameter is nil"

/-- Sentinel `ErrReaderNil` from the Go source. -/
def ErrReaderNil : GoError := GoError.new "no settings reader provided"

/-- Sentinel `ErrOpeningFile` from the Go source. -/
def ErrOpeningFile : GoError := GoError.new "failed to open appsettings file"

/-- Sentinel `ErrClosingFile` from the Go source. -/
def ErrClosingFile : GoError := GoError.new "failed to close appsettings file"

/-- Sentinel `ErrReadingFile` from the Go source. -/
def ErrReadingFile : GoError := GoError.new "failed to read appsettings file"

/-- Sentinel `ErrUnmarshalingFile` from the Go source. -/
def ErrUnmarshalingFile : GoError := GoError.new "failed to unmarshal appsettings file"

/-- Sentinel `ErrUpdateSettings` from the Go source. -/
def ErrUpdateSettings : GoError := GoError.new "failed to update settings with env vars"

/-- Sentinel `ErrValidateSettings` from the Go source. -/
def ErrValidateSettings : GoError := GoError.new "failed to validate settings"

/-- `DefaultAppSettingsFile` from the Go source. -/
def DefaultAppSettingsFile : String := "appsettings.json"

/-- A document source: the `io.ReadCloser` handed to the Composer. Reading
it to completion with `io.ReadAll` either yields the full byte content
(rendered here as a string) or fails; closing it either succeeds or fails
with an error. -/
structure ReadCloser where
  readResult : Except GoError String
  closeResult : Option GoError

/-- The `Composer` struct from the Go source: a document source handle plus
two optional plugin slots. An `EnvUpdater` mutates the settings value and
may fail, so it is a function from the settings value to an optional error
and the updated value; a `Validator` only inspects the settings value and
reports an optional accumulated error. -/
structure Composer (σ : Type) where
  jsonReader : Option ReadCloser
  updater : Option (σ → Option GoError × σ)
  validator : Option (σ → Option GoError)

/-- `NewComposerWithReader` from the Go source: if the supplied reader is
nil, open the default file through the operating system (`os.Open`, passed
in as `osOpen` since it is an external capability); an open failure is
wrapped with `ErrOpeningFile` via `errors.Join` and no Composer is
produced. Otherwise the Composer holds the given reader and both plugin
slots are nil. -/
def NewComposerWithReader (σ : Type) (jsonReadCloser : Option ReadCloser)
    (osOpen : String → Except GoError ReadCloser) : Except GoError (Composer σ) :=
  match jsonReadCloser with
  | none =>
    match osOpen DefaultAppSettingsFile with
    | Except.error e => Except.error (GoError.join ErrOpeningFile e)
    | Except.ok f =>
        Except.ok { jsonReader := some f, updater := none, validator := none }
  | some r => Except.ok { jsonReader := some r, updater := none, validator := none }

/-- `NewComposer` from the Go source: delegate to `NewComposerWithReader`
with a nil reader. -/
def NewComposer (σ : Type) (osOpen : String → Except GoError ReadCloser) :
    Except GoError (Composer σ) :=
  NewComposerWithReader σ none osOpen

/-- `WithUpdater` from the Go source: set the updater slot and return the
Composer for fluent chaining. -/
def Composer.WithUpdater {σ : Type} (as : Composer σ)
    (updater : Option (σ → Option GoError × σ)) : Composer σ :=
  { as with updater := updater }

/-- `WithValidator` from the Go source: set the validator slot and return
the Composer for fluent chaining. -/
def Composer.WithValidator {σ : Type} (as : Composer σ)
    (validator : Option (σ → Option GoError)) : Composer σ :=
  { as with validator := validator }

/-- Observable side effects of one `Read` call, in the order they are
performed: reading the source stream, invoking the JSON decoder, invoking
the updater plugin, invoking the validator plugin, and closing the source. -/
inductive Effect where
  | readSource
  | decodeCall
  | updateCall
  | validateCall
  | closeSource
deriving DecidableEq

/-- Step 3 of `Read`: if a validator is attached, invoke it on the settings
value; a reported error is wrapped with `ErrValidateSettings`. The effect
trace so far is threaded through. -/
def validateStep {σ : Type} (c : Composer σ) (s : σ) (fx : List Effect) :
    Option GoError × σ × List Effect :=
  match c.validator with
  | none => (none, s, fx)
  | some vld =>
    match vld s with
    | some vErr =>
        (some (GoError.join ErrValidateSettings vErr), s, fx ++ [Effect.validateCall])
    | none => (none, s, fx ++ [Effect.validateCall])

/-- Step 2 of `Read`: if an updater is attached, invoke it on the settings
value; a reported error is wrapped with `ErrUpdateSettings` and ends the
call before validation, otherwise control falls through to `validateStep`. -/
def updateStep {σ : Type} (c : Composer σ) (s : σ) (fx : List Effect) :
    Option GoError × σ × List Effect :=
  match c.updater with
  | none => validateStep c s fx
  | some upd =>
    match upd s with
    | (some updErr, s2) =>
        (some (GoError.join ErrUpdateSettings updErr), s2, fx ++ [Effect.updateCall])
    | (none, s2) => validateStep c s2 (fx ++ [Effect.updateCall])

/-- The deferred close registered inside Step 1 of `Read`. Because Go
defers run at function exit, it executes after Steps 2 and 3, and because
it assigns to the named return value `err` when the close fails, a close
failure replaces whatever result the body produced with
`errors.Join(ErrClosingFile, closeErr)`. -/
def deferClose {σ : Type} (rdr : ReadCloser)
    (body : Option GoError × σ × List Effect) :
    Option GoError × Option σ × List Effect :=
  match rdr.closeResult with
  | some closeErr =>
      (some (GoError.join ErrClosingFile closeErr), some body.2.1,
        body.2.2 ++ [Effect.closeSource])
  | none => (body.1, some body.2.1, body.2.2 ++ [Effect.closeSource])

/-- `Read` from the Go source. The receiver is an optional Composer (a nil
pointer receiver is legal in Go and is checked first), the settings
argument is optional (nil interface), and the JSON decoder is the external
`json.Unmarshal` capability specialized at the settings type: it consumes
the document text and the current settings value and returns an optional
error together with the (possibly partially) updated settings value.

The result is the returned error, the final settings value behind the
reference (absent when no settings reference was supplied), and the trace
of performed side effects. Guard clauses return before the deferred close
is registered, so no effect is performed on those paths; every later path
runs the deferred close last. -/
def Composer.Read {σ : Type} (unmarshal : String → σ → Option GoError × σ)
    (as : Option (Composer σ)) (settings : Option σ) :
    Option GoError × Option σ × List Effect :=
  match as with
  | none => (some ErrAppSettingsNil, settings, [])
  | some c =>
    match settings with
    | none => (some ErrSettingsParamNil, none, [])
    | some s0 =>
      match c.jsonReader with
      | none => (some ErrReaderNil, some s0, [])
      | some rdr =>
        deferClose rdr
          (match rdr.readResult with
           | Except.error readErr =>
               (some (GoError.join ErrReadingFile readErr), s0, [Effect.readSource])
           | Except.ok data =>
             match unmarshal data s0 with
             | (some decodeErr, s1) =>
                 (some (GoError.join ErrUnmarshalingFile decodeErr), s1,
                   [Effect.readSource, Effect.decodeCall])
             | (none, s1) =>
                 updateStep c s1 [Effect.readSource, Effect.decodeCall])

/-- Concrete settings value mirroring the `TestSettings` struct of the
package test suite, flattened to the two leaf fields the assertions
inspect: the log level (`Global.Log.Level`) and the Google credentials
(`Google.App.Credentials`). -/
structure TestSettings where
  logLevel : String
  credentials : String
deriving DecidableEq

/-- `errors.Join` on two optional errors, as the test validator uses it:
nil arguments are dropped, two non-nil arguments form a joined error. -/
def goJoin : Option GoError → Option GoError → Option GoError
  | none, none => none
  | some a, none => some a
  | none, some b => some b
  | some a, some b => some (GoError.join a b)

/-- The validator of the package test suite (`TestSettings.Validate`): it
accumulates one violation per empty required field with `errors.Join` and
returns the accumulated error, or nil when both fields are set. -/
def TestSettings.Validate (s : TestSettings) : Option GoError :=
  let errs : Option GoError := none
  let errs := if s.logLevel = "" then
      goJoin errs (some (GoError.new "Global.Log.Level is required")) else errs
  let errs := if s.credentials = "" then
      goJoin errs (some (GoError.new "Google.App.Credentials is required")) else errs
  errs

/-- Stand-in for the external standard library decoder specialized at
`TestSettings`: the well-formed document sets the log level to `Debug` and
does not mention the credentials field, which therefore keeps its prior
value; any other content fails the way the decoder fails on malformed
text, leaving the value untouched. -/
def demoUnmarshal (data : String) (s : TestSettings) : Option GoError × TestSettings :=
  if data = "wellformed-document" then
    (none, { logLevel := "Debug", credentials := s.credentials })
  else (some (GoError.new "invalid character"), s)

/-- A source whose read succeeds with the well-formed document and whose
close succeeds. -/
def wellFormedSource : ReadCloser :=
  { readResult := Except.ok "wellformed-document", closeResult := none }

/-- A source with the well-formed document whose close fails, like the
`TestReader` with `HasCloseError` in the package tests. -/
def wellFormedBadClose : ReadCloser :=
  { readResult := Except.ok "wellformed-document",
    closeResult := some (GoError.new "close error") }

/-- A source with malformed content whose close succeeds. -/
def malformedSource : ReadCloser :=
  { readResult := Except.ok "malformed-document", closeResult := none }

/-- A source with malformed content whose close also fails. -/
def malformedBadClose : ReadCloser :=
  { readResult := Except.ok "malformed-document",
    closeResult := some (GoError.new "close error") }

/-- A source whose read fails, like the `TestReader` with `HasReadError`
in the package tests, and whose close succeeds. -/
def failingReadSource : ReadCloser :=
  { readResult := Except.error (GoError.new "read error"), closeResult := none }

/-- A source whose read fails and whose close also fails. -/
def failingReadBadClose : ReadCloser :=
  { readResult := Except.error (GoError.new "read error"),
    closeResult := some (GoError.new "close error") }

/-- The zero value of the test settings struct. -/
def emptySettings : TestSettings := { logLevel := "", credentials := "" }

/-- A Composer built like `&appsettings.Composer{}` in the tests: no
source, no plugins. -/
def emptyComposer : Composer TestSettings :=
  { jsonReader := none, updater := none, validator := none }

/-- An updater plugin that always fails, like the `TestUpdater` with a set
`UpdateError` in the package tests. -/
def failingUpdater : TestSettings → Option GoError × TestSettings :=
  fun s => (some (GoError.new "updater error"), s)

/-- An updater plugin that fills in the credentials field, like the
`TestUpdater` with `GoogleCredentials` set in the package tests. -/
def credentialsUpdater : TestSettings → Option GoError × TestSettings :=
  fun s => (none, { s with credentials := "something" })

/-- The model of `os.Open` in a working directory that lacks the default
file: every open fails with the not-found cause naming the path. -/
def notFoundCause : GoError :=
  GoError.new "open appsettings.json: no such file or directory"

/-- See `notFoundCause`. -/
def notFoundOsOpen : String → Except GoError ReadCloser :=
  fun _ => Except.error notFoundCause

/-- Composer over the well-formed source with no plugins. -/
def noPluginsComposer : Composer TestSettings :=
  { jsonReader := some wellFormedSource, updater := none, validator := none }

/-- Composer over the well-formed source with a failing close and no
plugins. -/
def closeFailComposer : Composer TestSettings :=
  { jsonReader := some wellFormedBadClose, updater := none, validator := none }

/-- Composer over the malformed source with no plugins. -/
def malformedComposer : Composer TestSettings :=
  { jsonReader := some malformedSource, updater := none, validator := none }

/-- Composer over the malformed source with a failing close and no
plugins. -/
def malformedBadCloseComposer : Composer TestSettings :=
  { jsonReader := some malformedBadClose, updater := none, validator := none }

/-- Composer over the source with a failing read, no plugins. -/
def failingReadComposer : Composer TestSettings :=
  { jsonReader := some failingReadSource, updater := none, validator := none }

/-- Composer over the source whose read and close both fail, no plugins. -/
def failingReadBadCloseComposer : Composer TestSettings :=
  { jsonReader := some failingReadBadClose, updater := none, validator := none }

/-- Composer with a failing updater and an attached validator over the
well-formed source. -/
def updaterFailComposer : Composer TestSettings :=
  { jsonReader := some wellFormedSource, updater := some failingUpdater,
    validator := some TestSettings.Validate }

/-- Composer with a failing updater and an attached validator over the
well-formed source with a failing close. -/
def updaterFailBadCloseComposer : Composer TestSettings :=
  { jsonReader := some wellFormedBadClose, updater := some failingUpdater,
    validator := some TestSettings.Validate }

/-- The validation aggregation scenario: the document provides the log
level (field B) but not the credentials (field A), and the attached test
validator requires both. -/
def abScenarioComposer : Composer TestSettings :=
  { jsonReader := some wellFormedSource, updater := none,
    validator := some TestSettings.Validate }

/-- The aggregation scenario over a source whose close fails. -/
def abBadCloseComposer : Composer TestSettings :=
  { jsonReader := some wellFormedBadClose, updater := none,
    validator := some TestSettings.Validate }

/-- The rendered text of the error `Read` returns in the aggregation
scenario. -/
def abText : String :=
  match (Composer.Read demoUnmarshal (some abScenarioComposer) (some emptySettings)).1 with
  | some e => e.text
  | none => ""

theorem GoError.is_self (e : GoError) : e.is e = true := by
  cases e <;> simp [GoError.is]

theorem GoError.join_is_left (a b : GoError) : (GoError.join a b).is a = true := by
  simp [GoError.is, GoError.is_self]

theorem GoError.join_is_right (a b : GoError) : (GoError.join a b).is b = true := by
  simp [GoError.is, GoError.is_self]

/-- C1: the three guard clauses of `Read` fire in the order nil-composer,
nil-settings, nil-reader; each yields its own distinct error, and when a
guard fires no side effect is performed (the source is neither read nor
closed and no plugin is invoked) and the settings value is untouched. The
precedence is witnessed on a single Composer that would also trip the
later guards. -/
theorem read_guard_precedence (σ : Type)
    (unmarshal : String → σ → Option GoError × σ) (c : Composer σ) (s : σ)
    (sOpt : Option σ) (hnr : c.jsonReader = none) :
    Composer.Read unmarshal none sOpt = (some ErrAppSettingsNil, sOpt, [])
    ∧ Composer.Read unmarshal (some c) none = (some ErrSettingsParamNil, none, [])
    ∧ Composer.Read unmarshal (some c) (some s) = (some ErrReaderNil, some s, [])
    ∧ ErrAppSettingsNil ≠ ErrSettingsParamNil
    ∧ ErrAppSettingsNil ≠ ErrReaderNil
    ∧ ErrSettingsParamNil ≠ ErrReaderNil := by
  refine ⟨rfl, rfl, ?_, by decide, by decide, by decide⟩
  simp [Composer.Read, hnr]

/-- C1 witness: the guard theorem applied to the sourceless Composer of
the test suite. -/
theorem read_guard_precedence_witness :
    Composer.Read demoUnmarshal (some emptyComposer) (some emptySettings)
      = (some ErrReaderNil, some emptySettings, []) :=
  (read_guard_precedence TestSettings demoUnmarshal emptyComposer
    emptySettings none rfl).2.2.1

/-- C9: `WithUpdater` and `WithValidator` each replace only their own
plugin slot (any argument, including nil, is accepted unchecked), leave
the source and the other slot unchanged, and return the Composer itself,
so the two calls chain fluently. -/
theorem withUpdater_withValidator_frame (σ : Type) (c : Composer σ)
    (u : Option (σ → Option GoError × σ)) (v : Option (σ → Option GoError)) :
    (c.WithUpdater u).updater = u
    ∧ (c.WithUpdater u).jsonReader = c.jsonReader
    ∧ (c.WithUpdater u).validator = c.validator
    ∧ (c.WithValidator v).validator = v
    ∧ (c.WithValidator v).jsonReader = c.jsonReader
    ∧ (c.WithValidator v).updater = c.updater
    ∧ (c.WithUpdater u).WithValidator v
        = { jsonReader := c.jsonReader, updater := u, validator := v } :=
  ⟨rfl, rfl, rfl, rfl, rfl, rfl, rfl⟩

/-- C8: constructing with a nil reader opens exactly the default file
`appsettings.json`; an open failure is wrapped with the open sentinel
around the operating system cause (both remain inspectable, so not-found
stays distinguishable from permission-denied) and no Composer is produced,
while an open success yields a Composer holding the opened source and no
plugins. -/
theorem newComposer_default_source (σ : Type)
    (osOpen : String → Except GoError ReadCloser) (e : GoError) (f : ReadCloser) :
    DefaultAppSettingsFile = "appsettings.json"
    ∧ (osOpen DefaultAppSettingsFile = Except.error e →
        NewComposerWithReader σ none osOpen
            = Except.error (GoError.join ErrOpeningFile e)
          ∧ (GoError.join ErrOpeningFile e).is ErrOpeningFile = true
          ∧ (GoError.join ErrOpeningFile e).is e = true)
    ∧ (osOpen DefaultAppSettingsFile = Except.ok f →
        NewComposerWithReader σ none osOpen
          = Except.ok { jsonReader := some f, updater := none, validator := none }) := by
  refine ⟨rfl, fun h => ⟨?_, GoError.join_is_left .., GoError.join_is_right ..⟩,
    fun h => ?_⟩
  · simp [NewComposerWithReader, h]
  · simp [NewComposerWithReader, h]

/-- C8 witness: constructing with a nil reader in a directory lacking
`appsettings.json` fails with the open error wrapping the not-found cause
that names the file. -/
theorem newComposer_default_source_witness :
    NewComposerWithReader TestSettings none notFoundOsOpen
      = Except.error (GoError.join ErrOpeningFile notFoundCause)
    ∧ strContains (GoError.join ErrOpeningFile notFoundCause).text
        "open appsettings.json" = true :=
  ⟨((newComposer_default_source TestSettings notFoundOsOpen notFoundCause
      wellFormedSource).2.1 rfl).1, by decide⟩

/-- C3: whenever reading and decoding the source succeed but its close
fails, `Read` returns the close error wrapping the close failure — the
close failure overrides what the body produced (in particular what would
otherwise have been a success) and is never silently swallowed. The
statement holds for every updater and validator configuration. -/
theorem read_close_failure_overrides (σ : Type)
    (unmarshal : String → σ → Option GoError × σ) (c : Composer σ)
    (rdr : ReadCloser) (s0 s1 : σ) (data : String) (closeErr : GoError)
    (hr : c.jsonReader = some rdr)
    (hread : rdr.readResult = Except.ok data)
    (hdec : unmarshal data s0 = (none, s1))
    (hclose : rdr.closeResult = some closeErr) :
    (Composer.Read unmarshal (some c) (some s0)).1
      = some (GoError.join ErrClosingFile closeErr)
    ∧ (GoError.join ErrClosingFile closeErr).is ErrClosingFile = true
    ∧ (GoError.join ErrClosingFile closeErr).is closeErr = true := by
  refine ⟨?_, GoError.join_is_left .., GoError.join_is_right ..⟩
  simp [Composer.Read, hr, hread, hdec, deferClose, hclose]

/-- C3 witness: the overriding close failure on the plugin-free Composer
whose source holds the well-formed document but fails to close. -/
theorem read_close_failure_overrides_witness :
    (Composer.Read demoUnmarshal (some closeFailComposer) (some emptySettings)).1
      = some (GoError.join ErrClosingFile (GoError.new "close error")) :=
  (read_close_failure_overrides TestSettings demoUnmarshal closeFailComposer
    wellFormedBadClose emptySettings
    { logLevel := "Debug", credentials := "" } "wellformed-document"
    (GoError.new "close error") rfl rfl rfl rfl).1

/-- C10: when the read stage or the decode stage fails and the close also
fails, the deferred close handler overwrites the named return value, so
`Read` returns the close error alone; the earlier read or unmarshal cause
is discarded and is no longer inspectable in the result (the result is not
of read or unmarshal kind unless the close cause itself happens to embed
those sentinels). -/
theorem read_close_discards_earlier_error (σ : Type)
    (unmarshal : String → σ → Option GoError × σ) (c : Composer σ)
    (rdr : ReadCloser) (s0 s1 : σ) (data : String)
    (closeErr readErr decodeErr : GoError)
    (hr : c.jsonReader = some rdr)
    (hclose : rdr.closeResult = some closeErr) :
    (rdr.readResult = Except.error readErr →
       (Composer.Read unmarshal (some c) (some s0)).1
         = some (GoError.join ErrClosingFile closeErr))
    ∧ (rdr.readResult = Except.ok data → unmarshal data s0 = (some decodeErr, s1) →
       (Composer.Read unmarshal (some c) (some s0)).1
         = some (GoError.join ErrClosingFile closeErr))
    ∧ (closeErr.is ErrReadingFile = false →
        (GoError.join ErrClosingFile closeErr).is ErrReadingFile = false)
    ∧ (closeErr.is ErrUnmarshalingFile = false →
        (GoError.join ErrClosingFile closeErr).is ErrUnmarshalingFile = false) := by
  refine ⟨fun hread => ?_, fun hread hdec => ?_, fun h => ?_, fun h => ?_⟩
  · simp [Composer.Read, hr, hread, deferClose, hclose]
  · simp [Composer.Read, hr, hread, hdec, deferClose, hclose]
  · simpa [GoError.is, ErrClosingFile, ErrReadingFile] using h
  · simpa [GoError.is, ErrClosingFile, ErrUnmarshalingFile] using h

/-- C10 witness: on the source whose read and close both fail, `Read`
returns the close error alone and the read cause is gone from the result
text. -/
theorem read_close_discards_earlier_error_witness :
    (Composer.Read demoUnmarshal (some failingReadBadCloseComposer)
        (some emptySettings)).1
      = some (GoError.join ErrClosingFile (GoError.new "close error"))
    ∧ strContains
        (GoError.join ErrClosingFile (GoError.new "close error")).text
        "read error" = false :=
  ⟨(read_close_discards_earlier_error TestSettings demoUnmarshal
      failingReadBadCloseComposer failingReadBadClose emptySettings
      emptySettings "unused" (GoError.new "close error")
      (GoError.new "read error") (GoError.new "unused") rfl rfl).1 rfl,
   by decide⟩

/-- C2 counterexample: a document source yielding syntactically invalid
text whose close also fails makes `Read` return the close error, which is
not of unmarshal kind and no longer carries the decoder cause — so the
claim that every such source yields exactly an unmarshal error is false as
stated. -/
theorem read_unmarshal_failure_cex :
    (Composer.Read demoUnmarshal (some malformedBadCloseComposer)
        (some emptySettings)).1
      = some (GoError.join ErrClosingFile (GoError.new "close error"))
    ∧ (GoError.join ErrClosingFile (GoError.new "close error")).is
        ErrUnmarshalingFile = false
    ∧ strContains
        (GoError.join ErrClosingFile (GoError.new "close error")).text
        "invalid character" = false := by
  exact ⟨by decide, by decide, by decide⟩

/-- C2 (amended): for a document source with syntactically invalid text
whose close succeeds, `Read` returns exactly the unmarshal error wrapping
the decoder cause, and neither the updater stage nor the validate stage
runs; the settings value may have been partially modified by the decoder. -/
theorem read_unmarshal_failure (σ : Type)
    (unmarshal : String → σ → Option GoError × σ) (c : Composer σ)
    (rdr : ReadCloser) (s0 s1 : σ) (data : String) (decodeErr : GoError)
    (hr : c.jsonReader = some rdr)
    (hread : rdr.readResult = Except.ok data)
    (hdec : unmarshal data s0 = (some decodeErr, s1))
    (hclose : rdr.closeResult = none) :
    Composer.Read unmarshal (some c) (some s0)
      = (some (GoError.join ErrUnmarshalingFile decodeErr), some s1,
         [Effect.readSource, Effect.decodeCall, Effect.closeSource])
    ∧ (GoError.join ErrUnmarshalingFile decodeErr).is ErrUnmarshalingFile = true
    ∧ (GoError.join ErrUnmarshalingFile decodeErr).is decodeErr = true := by
  refine ⟨?_, GoError.join_is_left .., GoError.join_is_right ..⟩
  simp [Composer.Read, hr, hread, hdec, deferClose, hclose]

/-- C2 witness: the malformed source with a clean close yields the
unmarshal error and the trace shows no updater or validator call. -/
theorem read_unmarshal_failure_witness :
    Composer.Read demoUnmarshal (some malformedComposer) (some emptySettings)
      = (some (GoError.join ErrUnmarshalingFile (GoError.new "invalid character")),
         some emptySettings,
         [Effect.readSource, Effect.decodeCall, Effect.closeSource]) :=
  (read_unmarshal_failure TestSettings demoUnmarshal malformedComposer
    malformedSource emptySettings emptySettings "malformed-document"
    (GoError.new "invalid character") rfl rfl rfl rfl).1

/-- C5 counterexample: with no plugins attached and a well-formed
document, `Read` still fails when the close of the source fails, so a
well-formed document alone is not sufficient for success. -/
theorem read_no_plugins_success_cex :
    (Composer.Read demoUnmarshal (some closeFailComposer) (some emptySettings)).1
      = some (GoError.join ErrClosingFile (GoError.new "close error"))
    ∧ (Composer.Read demoUnmarshal (some closeFailComposer)
        (some emptySettings)).1 ≠ none := by
  exact ⟨by decide, by decide⟩

/-- C5 (amended): with no updater and no validator attached, a well-formed
document on a source whose close succeeds makes `Read` succeed; the
updater and validate stages are skipped (no such effect appears in the
trace) and no field of the decoded value is inspected, so missing required
fields never cause failure without an attached validator. -/
theorem read_no_plugins_success (σ : Type)
    (unmarshal : String → σ → Option GoError × σ) (c : Composer σ)
    (rdr : ReadCloser) (s0 s1 : σ) (data : String)
    (hupd : c.updater = none) (hvld : c.validator = none)
    (hr : c.jsonReader = some rdr)
    (hread : rdr.readResult = Except.ok data)
    (hdec : unmarshal data s0 = (none, s1))
    (hclose : rdr.closeResult = none) :
    Composer.Read unmarshal (some c) (some s0)
      = (none, some s1, [Effect.readSource, Effect.decodeCall, Effect.closeSource]) := by
  simp [Composer.Read, hr, hread, hdec, updateStep, hupd, validateStep, hvld,
    deferClose, hclose]

/-- C5 witness: the plugin-free Composer over the well-formed source
succeeds even though the decoded value has an empty required credentials
field. -/
theorem read_no_plugins_success_witness :
    Composer.Read demoUnmarshal (some noPluginsComposer) (some emptySettings)
      = (none, some { logLevel := "Debug", credentials := "" },
         [Effect.readSource, Effect.decodeCall, Effect.closeSource]) :=
  read_no_plugins_success TestSettings demoUnmarshal noPluginsComposer
    wellFormedSource emptySettings { logLevel := "Debug", credentials := "" }
    "wellformed-document" rfl rfl rfl rfl rfl rfl

/-- C7 counterexample: a source whose read fails and whose close also
fails makes `Read` return the close error, which is not of read kind and
no longer carries the read cause — so the claim that every source with a
failing read yields a read error is false as stated. -/
theorem read_read_failure_cex :
    (Composer.Read demoUnmarshal (some failingReadBadCloseComposer)
        (some emptySettings)).1
      = some (GoError.join ErrClosingFile (GoError.new "close error"))
    ∧ (GoError.join ErrClosingFile (GoError.new "close error")).is
        ErrReadingFile = false
    ∧ strContains
        (GoError.join ErrClosingFile (GoError.new "close error")).text
        "read error" = false := by
  exact ⟨by decide, by decide, by decide⟩

/-- C7 (amended): when the read of the source fails, the decoder is never
invoked and the deferred close is still performed on that exit path; if
the close succeeds, `Read` returns the read error wrapping the underlying
read cause (if the close also fails, the close error replaces it). -/
theorem read_read_failure (σ : Type)
    (unmarshal : String → σ → Option GoError × σ) (c : Composer σ)
    (rdr : ReadCloser) (s0 : σ) (readErr : GoError)
    (hr : c.jsonReader = some rdr)
    (hread : rdr.readResult = Except.error readErr) :
    (rdr.closeResult = none →
       Composer.Read unmarshal (some c) (some s0)
         = (some (GoError.join ErrReadingFile readErr), some s0,
            [Effect.readSource, Effect.closeSource])
       ∧ (GoError.join ErrReadingFile readErr).is ErrReadingFile = true
       ∧ (GoError.join ErrReadingFile readErr).is readErr = true)
    ∧ (∀ closeErr : GoError, rdr.closeResult = some closeErr →
       (Composer.Read unmarshal (some c) (some s0)).2.2
         = [Effect.readSource, Effect.closeSource]) := by
  refine ⟨fun hclose => ⟨?_, GoError.join_is_left .., GoError.join_is_right ..⟩,
    fun closeErr hclose => ?_⟩
  · simp [Composer.Read, hr, hread, deferClose, hclose]
  · simp [Composer.Read, hr, hread, deferClose, hclose]

/-- C7 witness: the source with a failing read and clean close yields the
read error, with the trace showing no decode and a performed close. -/
theorem read_read_failure_witness :
    Composer.Read demoUnmarshal (some failingReadComposer) (some emptySettings)
      = (some (GoError.join ErrReadingFile (GoError.new "read error")),
         some emptySettings, [Effect.readSource, Effect.closeSource]) :=
  ((read_read_failure TestSettings demoUnmarshal failingReadComposer
    failingReadSource emptySettings (GoError.new "read error") rfl rfl).1 rfl).1

/-- C6 counterexample: when the attached updater fails and the close of
the source also fails, `Read` returns the close error rather than an
update-kind error, so the claim that every updater failure is returned
wrapped as an update error is false as stated. -/
theorem read_updater_failure_cex :
    (Composer.Read demoUnmarshal (some updaterFailBadCloseComposer)
        (some emptySettings)).1
      = some (GoError.join ErrClosingFile (GoError.new "close error"))
    ∧ (GoError.join ErrClosingFile (GoError.new "close error")).is
        ErrUpdateSettings = false
    ∧ strContains
        (GoError.join ErrClosingFile (GoError.new "close error")).text
        "updater error" = false := by
  exact ⟨by decide, by decide, by decide⟩

/-- C6 (amended): when the attached updater fails and the close of the
source succeeds, `Read` returns the update error wrapping the updater
cause, and the validate stage never runs even when a validator is
attached (the trace ends without a validator call for every validator
slot value). -/
theorem read_updater_failure (σ : Type)
    (unmarshal : String → σ → Option GoError × σ) (c : Composer σ)
    (rdr : ReadCloser) (s0 s1 s2 : σ) (data : String)
    (upd : σ → Option GoError × σ) (updErr : GoError)
    (hu : c.updater = some upd)
    (hr : c.jsonReader = some rdr)
    (hread : rdr.readResult = Except.ok data)
    (hdec : unmarshal data s0 = (none, s1))
    (hupd : upd s1 = (some updErr, s2))
    (hclose : rdr.closeResult = none) :
    Composer.Read unmarshal (some c) (some s0)
      = (some (GoError.join ErrUpdateSettings updErr), some s2,
         [Effect.readSource, Effect.decodeCall, Effect.updateCall,
          Effect.closeSource])
    ∧ (GoError.join ErrUpdateSettings updErr).is ErrUpdateSettings = true
    ∧ (GoError.join ErrUpdateSettings updErr).is updErr = true := by
  refine ⟨?_, GoError.join_is_left .., GoError.join_is_right ..⟩
  simp [Composer.Read, hr, hread, hdec, updateStep, hu, hupd, deferClose, hclose]

/-- C6 witness: the failing updater on a Composer that also has a
validator attached yields the update error and a trace without a
validator call. -/
theorem read_updater_failure_witness :
    Composer.Read demoUnmarshal (some updaterFailComposer) (some emptySettings)
      = (some (GoError.join ErrUpdateSettings (GoError.new "updater error")),
         some { logLevel := "Debug", credentials := "" },
         [Effect.readSource, Effect.decodeCall, Effect.updateCall,
          Effect.closeSource]) :=
  (read_updater_failure TestSettings demoUnmarshal updaterFailComposer
    wellFormedSource emptySettings { logLevel := "Debug", credentials := "" }
    { logLevel := "Debug", credentials := "" } "wellformed-document"
    failingUpdater (GoError.new "updater error") rfl rfl rfl rfl rfl rfl).1

/-- C4 counterexample: in the aggregation scenario over a source whose
close fails, the validator result is overwritten by the close error, so
the returned error is not of validate kind and carries no violation
message — the claim is false as stated without a proviso on the close. -/
theorem read_validate_aggregation_cex :
    (Composer.Read demoUnmarshal (some abBadCloseComposer) (some emptySettings)).1
      = some (GoError.join ErrClosingFile (GoError.new "close error"))
    ∧ (GoError.join ErrClosingFile (GoError.new "close error")).is
        ErrValidateSettings = false
    ∧ strContains
        (GoError.join ErrClosingFile (GoError.new "close error")).text
        "Google.App.Credentials is required" = false := by
  exact ⟨by decide, by decide, by decide⟩

/-- C4 (amended): when the pipeline reaches an attached validator (decode
succeeded and the updater, if any, succeeded) on a source whose close
succeeds, `Read` returns exactly the validate error wrapping the validator
result, so every underlying violation stays inspectable (any cause found
inside the validator result is found inside the returned error, and the
rendered text appends the full validator text, dropping nothing); in the
concrete scenario with field A (credentials) missing, field B (log level)
present and a validator requiring both, the resulting text contains the
violation for A and not the violation for B. -/
theorem read_validate_aggregation (σ : Type)
    (unmarshal : String → σ → Option GoError × σ) (c : Composer σ)
    (rdr : ReadCloser) (s0 s1 sv : σ) (data : String)
    (vld : σ → Option GoError) (vErr : GoError)
    (hv : c.validator = some vld)
    (hr : c.jsonReader = some rdr)
    (hread : rdr.readResult = Except.ok data)
    (hdec : unmarshal data s0 = (none, s1))
    (hmid : (c.updater = none ∧ sv = s1)
          ∨ (∃ upd, c.updater = some upd ∧ upd s1 = (none, sv)))
    (hvld : vld sv = some vErr)
    (hclose : rdr.closeResult = none) :
    (Composer.Read unmarshal (some c) (some s0)).1
      = some (GoError.join ErrValidateSettings vErr)
    ∧ (GoError.join ErrValidateSettings vErr).is ErrValidateSettings = true
    ∧ (∀ cause : GoError, vErr.is cause = true →
        (GoError.join ErrValidateSettings vErr).is cause = true)
    ∧ (GoError.join ErrValidateSettings vErr).text
        = ErrValidateSettings.text ++ "\n" ++ vErr.text
    ∧ strContains abText "Google.App.Credentials is required" = true
    ∧ strContains abText "Global.Log.Level is required" = false := by
  refine ⟨?_, GoError.join_is_left .., fun cause h => by simp [GoError.is, h],
    rfl, by decide, by decide⟩
  rcases hmid with ⟨hu, hsv⟩ | ⟨upd, hu, hupd⟩
  · subst hsv
    simp [Composer.Read, hr, hread, hdec, updateStep, hu, validateStep, hv,
      hvld, deferClose, hclose]
  · simp [Composer.Read, hr, hread, hdec, updateStep, hu, hupd, validateStep,
      hv, hvld, deferClose, hclose]

/-- C4 witness: the aggregation Composer returns the validate error
wrapping exactly the single applicable violation. -/
theorem read_validate_aggregation_witness :
    (Composer.Read demoUnmarshal (some abScenarioComposer) (some emptySettings)).1
      = some (GoError.join ErrValidateSettings
          (GoError.new "Google.App.Credentials is required")) :=
  (read_validate_aggregation TestSettings demoUnmarshal abScenarioComposer
    wellFormedSource emptySettings { logLevel := "Debug", credentials := "" }
    { logLevel := "Debug", credentials := "" } "wellformed-document"
    TestSettings.Validate (GoError.new "Google.App.Credentials is required")
    rfl rfl rfl rfl (Or.inl ⟨rfl, rfl⟩) rfl rfl).1
